import Mathlib

/- Verification development for the ServiceNow skills repository.
   Shallow embedding of the core API client (scripts/servicenow_api.py)
   and the incidents collaborator (scripts/incidents.py).

   Modelling conventions:
   - Python strings are Lean String (in Lean 4.14 a wrapper around List Char);
     helper functions on List Char mirror Python string methods.
   - Python None/values are Option; Python truthiness is made explicit
     (truthyS, truthyI, jsonTruthy below).
   - The Python stdlib json module is external to the repository: json.loads
     is a parameter (loads : String -> Except String Json) of the embedded
     functions that call it, and Json below models its output values.
   - HTTP transport is external: responses are supplied by oracle functions
     (Nat -> TokenRespData, Nat -> HttpResp) indexed by call count, so the
     embedding can state exactly how many underlying calls occur. -/

/-- Minimal model of the values produced by Python json.loads /
consumed by json.dumps. Numbers are modelled as integers (no claim
depends on float payloads). -/
inductive Json where
  | null
  | bool (b : Bool)
  | num (n : Int)
  | str (s : String)
  | arr (elems : List Json)
  | obj (fields : List (String × Json))

/-- Python dict.get on a JSON object field list (first binding wins;
keys produced by json.loads are unique). -/
def plookup (fields : List (String × Json)) (k : String) : Option Json :=
  match fields with
  | [] => none
  | (k0, v) :: rest => if k0 = k then some v else plookup rest k

/-- Python truthiness of a decoded JSON value. -/
def jsonTruthy : Json → Bool
  | .null => false
  | .bool b => b
  | .num n => n ≠ 0
  | .str s => s ≠ ""
  | .arr es => !es.isEmpty
  | .obj fs => !fs.isEmpty

/-- Python truthiness of an Optional JSON value. -/
def jtruthyOpt : Option Json → Bool
  | none => false
  | some j => jsonTruthy j

/-- Python truthiness of an Optional[str]: None and the empty string are
falsy, every other string (including whitespace-only) is truthy. -/
def truthyS : Option String → Bool
  | none => false
  | some s => s ≠ ""

/-- Python truthiness of an Optional[int]: None and 0 are falsy. -/
def truthyI : Option Int → Bool
  | none => false
  | some n => n ≠ 0

/-- Python str() of a scalar JSON value, as used by f-string interpolation
in the domain scripts. Lists and dicts are not interpolated by any code
path a claim exercises; they get a placeholder rendering here. -/
def pyStr : Json → String
  | .null => "None"
  | .bool b => if b then "True" else "False"
  | .num n => toString n
  | .str s => s
  | .arr _ => "<list>"
  | .obj _ => "<dict>"

/-- dict.get(k) on a JSON object; None on non-objects (the Python code
would raise AttributeError there, which no claim exercises). -/
def jget (j : Json) (k : String) : Option Json :=
  match j with
  | .obj fs => plookup fs k
  | _ => none

/-- Extract an integer from a JSON value (for limit/offset passing). -/
def jint (j : Json) : Option Int :=
  match j with
  | .num n => some n
  | _ => none

/-- Does this JSON value equal the given Python string? (Models
`action == "get"` comparisons.) -/
def jeqStr (j : Json) (s : String) : Bool :=
  match j with
  | .str t => t = s
  | _ => false

/-- Characters stripped by Python str.strip() (ASCII whitespace). -/
def isPyWs (c : Char) : Bool :=
  c = ' ' ∨ c = '\t' ∨ c = '\n' ∨ c = '\r' ∨ c = '\x0b' ∨ c = '\x0c'

/-- Python str.strip() on a character list. -/
def pyStripL (l : List Char) : List Char :=
  ((l.dropWhile isPyWs).reverse.dropWhile isPyWs).reverse

/-- Python str.strip(). -/
def pyStrip (s : String) : String := ⟨pyStripL s.data⟩

/-- Python str.rstrip("/"): drop every trailing slash. -/
def rstripSlash (s : String) : String :=
  ⟨(s.data.reverse.dropWhile (· = '/')).reverse⟩

/-- Python str.startswith, computed on the underlying character lists. -/
def strStartsWith (s pre : String) : Bool :=
  List.isPrefixOf pre.data s.data

/-- Python str.replace for a one-character pattern: scan left to right,
replacing every occurrence of p by rep. -/
def replaceChar (p : Char) (rep : List Char) : List Char → List Char
  | [] => []
  | c :: rest => (if c = p then rep else [c]) ++ replaceChar p rep rest

/-- Python str.replace for a two-character pattern p q: scan left to
right, replacing non-overlapping occurrences by rep (every pattern the
source replaces has one or two characters). -/
def replacePair (p q : Char) (rep : List Char) : List Char → List Char
  | [] => []
  | [c] => [c]
  | c :: d :: rest =>
    if c = p ∧ d = q then rep ++ replacePair p q rep rest
    else c :: replacePair p q rep (d :: rest)

/-- Split a character list at the first occurrence of c, if any.
Models Python str.partition for the separator-found case. -/
def splitFirst (c : Char) : List Char → Option (List Char × List Char)
  | [] => none
  | x :: xs =>
    if x = c then some ([], xs)
    else (splitFirst c xs).map (fun pr => (x :: pr.1, pr.2))

/-- Split a character list into the lines Python's text-mode reader
yields (terminators removed): with universal newlines, a line breaks at
a CRLF pair, at a lone CR, or at a lone LF. -/
def splitNl : List Char → List (List Char)
  | [] => [[]]
  | [c] => if c = '\n' ∨ c = '\r' then [[], []] else [[c]]
  | c :: d :: cs =>
    if c = '\r' ∧ d = '\n' then [] :: splitNl cs
    else if c = '\n' ∨ c = '\r' then [] :: splitNl (d :: cs)
    else
      match splitNl (d :: cs) with
      | [] => [[c]]
      | l :: ls => (c :: l) :: ls

/-- List-level separator join (models Python str.join). -/
def intercalateL (sep : List Char) : List (List Char) → List Char
  | [] => []
  | [x] => x
  | x :: xs => x ++ sep ++ intercalateL sep xs

/-- Python sep.join(strings). -/
def strJoin (sep : String) (l : List String) : String :=
  ⟨intercalateL sep.data (l.map String.data)⟩

/-- Python dict assignment d[k] = v on an insertion-ordered map. -/
def dinsert (d : List (String × String)) (k v : String) : List (String × String) :=
  if d.any (fun p => p.1 = k) then
    d.map (fun p => if p.1 = k then (k, v) else p)
  else
    d ++ [(k, v)]

/-- Python int(s) for the strings the config loader feeds it: optional
surrounding whitespace, optional sign, then decimal digits. Returns
none where Python raises ValueError. -/
def pyParseInt (s : String) : Option Int :=
  let t := pyStripL s.data
  let (neg, digits) :=
    match t with
    | '-' :: rest => (true, rest)
    | '+' :: rest => (false, rest)
    | l => (false, l)
  if digits = [] ∨ ¬ digits.all Char.isDigit then none
  else
    let n : Nat := digits.foldl (fun acc c => acc * 10 + (c.toNat - 48)) 0
    some (if neg then -(n : Int) else (n : Int))

/- ===================================================================
   Error hierarchy (servicenow_api.py, ServiceNowError and subclasses)
   =================================================================== -/

/-- The exception classes of servicenow_api.py. serviceNow is the base
ServiceNowError; the other constructors are its semantic subclasses. -/
inductive ErrorKind where
  | serviceNow
  | authentication
  | configuration
  | notFound
  | rateLimit
  | validation
deriving DecidableEq

/-- The payload every ServiceNowError carries: message, optional HTTP
status code, optional raw response body. -/
structure SNError where
  kind : ErrorKind
  message : String
  status_code : Option Int := none
  response_body : Option String := none

/-- Result of an embedded Python function that may raise ServiceNowError. -/
inductive Res (α : Type) where
  | ok (v : α)
  | err (e : SNError)

/-- ServiceNowError.to_dict: JSON-serializable view of an error.
Mirrors the source: the message always, the status code when truthy,
and details when the body is truthy - parsed via json.loads when the
body is valid JSON, otherwise the raw string. loads models json.loads. -/
def to_dict (loads : String → Except String Json) (e : SNError) : List (String × Json) :=
  let result := [("error", Json.str e.message)]
  let result :=
    if truthyI e.status_code then
      result ++ [("status_code", Json.num (e.status_code.getD 0))]
    else result
  if truthyS e.response_body then
    match loads (e.response_body.getD "") with
    | .ok parsed => result ++ [("details", parsed)]
    | .error _ => result ++ [("details", Json.str (e.response_body.getD ""))]
  else result

/- ===================================================================
   Environment loading (servicenow_api.py lines 77-224)
   =================================================================== -/

/-- _parse_quoted_value, double-quoted branch: the sequential str.replace
chain from the source, using NUL as the temporary stand-in for an
escaped backslash. Note the source resolves backslash, quote, n and t
escapes only; a backslash-r pair is left untouched. -/
def decodeDq (l : List Char) : List Char :=
  let r1 := replacePair '\\' '\\' ['\x00'] l
  let r2 := replacePair '\\' '"' ['"'] r1
  let r3 := replacePair '\\' 'n' ['\n'] r2
  let r4 := replacePair '\\' 't' ['\t'] r3
  replaceChar '\x00' ['\\'] r4

/-- _parse_quoted_value, single-quoted branch. -/
def decodeSq (l : List Char) : List Char :=
  let r1 := replacePair '\\' '\\' ['\x00'] l
  let r2 := replacePair '\\' '\'' ['\''] r1
  let r3 := replacePair '\\' 'n' ['\n'] r2
  let r4 := replacePair '\\' 't' ['\t'] r3
  replaceChar '\x00' ['\\'] r4

/-- _parse_quoted_value: strip, then unquote matching single or double
quotes (resolving escapes), else return the stripped value unchanged. -/
def parse_quoted_value (value : String) : String :=
  let v := pyStripL value.data
  if v = [] then ⟨v⟩
  else if v.take 1 = ['"'] ∧ v.getLast? = some '"' ∧ v.length ≥ 2 then
    ⟨decodeDq (v.drop 1).dropLast⟩
  else if v.take 1 = ['\''] ∧ v.getLast? = some '\'' ∧ v.length ≥ 2 then
    ⟨decodeSq (v.drop 1).dropLast⟩
  else ⟨v⟩

/-- Process the lines of an env file into the accumulated variable map
(load_env_file's inner loop): skip blank lines, comment lines and lines
without an equals sign; split the rest at the first equals sign; strip
the key; unquote the value. -/
def parseEnvLines : List (List Char) → List (String × String) → List (String × String)
  | [], acc => acc
  | l :: ls, acc =>
    let line := pyStripL l
    if line = [] ∨ line.take 1 = ['#'] then parseEnvLines ls acc
    else
      match splitFirst '=' line with
      | none => parseEnvLines ls acc
      | some (k, v) =>
        parseEnvLines ls (dinsert acc ⟨pyStripL k⟩ (parse_quoted_value ⟨v⟩))

/-- load_env_file: candidates are the contents of the search paths in
order (none when the file does not exist); the first existing file is
parsed, and an empty mapping is returned when no candidate exists. -/
def load_env_file (candidates : List (Option String)) : List (String × String) :=
  match candidates with
  | [] => []
  | none :: rest => load_env_file rest
  | some content :: _ => parseEnvLines (splitNl content.data) []

/-- The resolved ServiceNow configuration dictionary built by get_config.
The instance key is named instanceUrl because instance is reserved in
Lean. -/
structure Config where
  instanceUrl : Option String
  username : Option String
  password : Option String
  client_id : Option String
  client_secret : Option String
  api_key : Option String
  timeout : Option Int

/-- os.environ.get(k, file_vars.get(k)): the process environment wins
when the key is set there (even to the empty string), else the
file-sourced value is used. -/
def envGet (env fileVars : String → Option String) (k : String) : Option String :=
  match env k with
  | some v => some v
  | none => fileVars k

/-- get_config: merge file-backed variables with the process environment
(environment wins), parse the timeout leniently, require a truthy
instance, strip its trailing slashes, and require at least one truthy
credential set. env and fileVars model os.environ.get and the mapping
returned by load_env_file. -/
def get_config (env fileVars : String → Option String) : Res Config :=
  let timeout_str := envGet env fileVars "SERVICENOW_TIMEOUT"
  let timeout_value : Option Int :=
    if truthyS timeout_str then pyParseInt (timeout_str.getD "") else none
  let cfg : Config :=
    { instanceUrl := envGet env fileVars "SERVICENOW_INSTANCE"
      username := envGet env fileVars "SERVICENOW_USERNAME"
      password := envGet env fileVars "SERVICENOW_PASSWORD"
      client_id := envGet env fileVars "SERVICENOW_CLIENT_ID"
      client_secret := envGet env fileVars "SERVICENOW_CLIENT_SECRET"
      api_key := envGet env fileVars "SERVICENOW_API_KEY"
      timeout := timeout_value }
  if ¬ truthyS cfg.instanceUrl then
    .err { kind := .configuration
           message := "SERVICENOW_INSTANCE is required. Set it in ~/.claude/env or as an environment variable." }
  else
    let cfg := { cfg with instanceUrl := some (rstripSlash (cfg.instanceUrl.getD "")) }
    let has_basic_auth := truthyS cfg.username && truthyS cfg.password
    let has_oauth := truthyS cfg.client_id && truthyS cfg.client_secret
    let has_api_key := truthyS cfg.api_key
    if ¬ (has_basic_auth || has_oauth || has_api_key) then
      .err { kind := .configuration
             message := "No valid authentication configured. Provide either:\n  - SERVICENOW_USERNAME and SERVICENOW_PASSWORD for Basic auth\n  - SERVICENOW_CLIENT_ID and SERVICENOW_CLIENT_SECRET for OAuth\n  - SERVICENOW_API_KEY for API key authentication" }
    else .ok cfg

/- ===================================================================
   Base64 and UTF-8 (used by Basic authentication)
   =================================================================== -/

/-- The base64 alphabet character for a 6-bit value. -/
def b64Char (n : Nat) : Char :=
  ("ABCDEFGHIJKLMNOPQRSTUVWXYZabcdefghijklmnopqrstuvwxyz0123456789+/".data.getD n '?')

/-- Standard base64 of a byte sequence (values 0-255), with padding;
models base64.b64encode. -/
def base64Encode : List Nat → String
  | [] => ""
  | [b1] =>
    ⟨[b64Char (b1 / 4), b64Char (b1 % 4 * 16), '=', '=']⟩
  | [b1, b2] =>
    ⟨[b64Char (b1 / 4), b64Char (b1 % 4 * 16 + b2 / 16), b64Char (b2 % 16 * 4), '=']⟩
  | b1 :: b2 :: b3 :: rest =>
    String.mk [b64Char (b1 / 4), b64Char (b1 % 4 * 16 + b2 / 16),
               b64Char (b2 % 16 * 4 + b3 / 64), b64Char (b3 % 64)] ++ base64Encode rest

/-- UTF-8 encoding of a Unicode code point as byte values. -/
def utf8EncodeCp (n : Nat) : List Nat :=
  if n < 0x80 then [n]
  else if n < 0x800 then [0xC0 + n / 64, 0x80 + n % 64]
  else if n < 0x10000 then [0xE0 + n / 4096, 0x80 + n / 64 % 64, 0x80 + n % 64]
  else [0xF0 + n / 262144, 0x80 + n / 4096 % 64, 0x80 + n / 64 % 64, 0x80 + n % 64]

/-- str.encode(): the UTF-8 bytes of a string. -/
def utf8Bytes (s : String) : List Nat :=
  s.data.foldr (fun c acc => utf8EncodeCp c.toNat ++ acc) []

/- ===================================================================
   ServiceNowClient (servicenow_api.py lines 231-574)
   =================================================================== -/

/-- The mutable authentication state of a ServiceNowClient together with
its configuration. self.instance is config["instance"] (getD "" is
unreachable because get_config guarantees a truthy instance). -/
structure ClientState where
  config : Config
  access_token : Option String
  token_type : String

/-- The instance URL a client was constructed with (self.instance). -/
def clientInstance (st : ClientState) : String :=
  st.config.instanceUrl.getD ""

/-- Outcome of one POST to the OAuth token endpoint, as seen by
_obtain_oauth_token after response handling: either the two fields it
reads from the parsed JSON body, or an HTTPError (code, reason, body
when e.fp is set), or a URLError. -/
inductive TokenRespData where
  | ok (access_token : Option String) (token_type : Option String)
  | httpError (code : Int) (reason : String) (body : Option String)
  | urlError (reason : String)

/-- Outcome of one urlopen call for a main API request: success with the
parsed JSON body (none models an empty body, returned as an empty dict),
or an HTTPError (code, reason, body), or a URLError. A success body that
is not valid JSON would raise an uncaught JSONDecodeError in the source;
no claim exercises that path. -/
inductive HttpResp where
  | ok (body : Option Json)
  | httpError (code : Int) (reason : String) (body : Option String)
  | urlError (reason : String)

/-- _obtain_oauth_token: store the access_token and token_type from the
token response (token_type defaults to Bearer), failing with
AuthenticationError when the token is missing or the call failed. -/
def obtain_oauth_token (st : ClientState) (resp : TokenRespData) : Res ClientState :=
  match resp with
  | .ok tok ttype =>
    let st1 := { st with access_token := tok, token_type := ttype.getD "Bearer" }
    if ¬ truthyS st1.access_token then
      .err { kind := .authentication, message := "OAuth response did not contain access_token" }
    else .ok st1
  | .httpError code reason body =>
    .err { kind := .authentication, message := "OAuth authentication failed: " ++ reason
           status_code := some code, response_body := body }
  | .urlError reason =>
    .err { kind := .authentication, message := "Failed to connect for OAuth: " ++ reason }

/-- _get_auth_header: strict precedence API key, then OAuth (fetching a
token when none is cached), then Basic; AuthenticationError otherwise.
Returns the Authorization header value, the client state after the call,
and the number of token-endpoint calls made (0 or 1); tokenResp gives
the outcome of the tc-th token-endpoint call. -/
def get_auth_header (tokenResp : Nat → TokenRespData) (st : ClientState) (tc : Nat) :
    Res (String × ClientState) × Nat :=
  if truthyS st.config.api_key then
    (.ok ("Bearer " ++ st.config.api_key.getD "", st), 0)
  else if truthyS st.config.client_id ∧ truthyS st.config.client_secret then
    if ¬ truthyS st.access_token then
      match obtain_oauth_token st (tokenResp tc) with
      | .err e => (.err e, 1)
      | .ok st1 => (.ok (st1.token_type ++ " " ++ st1.access_token.getD "", st1), 1)
    else
      (.ok (st.token_type ++ " " ++ st.access_token.getD "", st), 0)
  else if truthyS st.config.username ∧ truthyS st.config.password then
    let credentials := st.config.username.getD "" ++ ":" ++ st.config.password.getD ""
    (.ok ("Basic " ++ base64Encode (utf8Bytes credentials), st), 0)
  else
    (.err { kind := .authentication, message := "No valid authentication method available" }, 0)

/-- _build_url: record URL when sys_id is truthy, collection URL
otherwise (an empty sys_id selects the collection URL). -/
def build_url (instanceUrl table : String) (sys_id : Option String)
    (api_path : String) : String :=
  if truthyS sys_id then
    instanceUrl ++ api_path ++ "/" ++ table ++ "/" ++ sys_id.getD ""
  else
    instanceUrl ++ api_path ++ "/" ++ table

/-- A query-parameter value (the source passes str and int values). -/
inductive PVal where
  | s (v : String)
  | i (n : Int)
deriving DecidableEq

/-- One underlying main-API HTTP attempt, recorded before URL encoding:
method, base URL, body data, query parameters. urlencode is stdlib; the
final URL is a function of url and params. -/
structure Attempt where
  method : String
  url : String
  data : Option Json
  params : Option (List (String × PVal))

/-- The observable outcome of _make_request: the returned value or the
raised error, the client state afterwards, the number of token-endpoint
calls and the list of main-API attempts made (in order). -/
structure MRResult where
  outcome : Res Json
  state : ClientState
  tokenCalls : Nat
  attempts : List Attempt

/-- _make_request with explicit recursion fuel. The source recurses at
most once (guarded by the _retry flag); fuel bounds that recursion depth
so the definition is structurally recursive (make_request below supplies
fuel 1, enough for the single allowed retry). On a 401 with a cached
OAuth token and _retry false, the cached token is cleared and the whole
request is re-issued once with the same method, url, data and params. -/
def make_request_fuel (tokenResp : Nat → TokenRespData) (httpResp : Nat → HttpResp) :
    Nat → Nat → Nat → ClientState → String → String → Option Json →
    Option (List (String × PVal)) → Bool → MRResult
  | fuel, tc, hc, st, method, url, data, params, _retry =>
    match get_auth_header tokenResp st tc with
    | (.err e, n) => ⟨.err e, st, n, []⟩
    | (.ok (_hdr, st1), n) =>
      let att : Attempt := ⟨method, url, data, params⟩
      match httpResp hc with
      | .ok body => ⟨.ok (body.getD (Json.obj [])), st1, n, [att]⟩
      | .urlError reason =>
        ⟨.err { kind := .serviceNow, message := "Failed to connect to ServiceNow: " ++ reason },
         st1, n, [att]⟩
      | .httpError code reason body =>
        if code = 401 then
          if truthyS st1.access_token ∧ _retry = false then
            match fuel with
            | fuel1 + 1 =>
              let st2 := { st1 with access_token := none }
              let r := make_request_fuel tokenResp httpResp fuel1 (tc + n) (hc + 1)
                         st2 method url data params true
              ⟨r.outcome, r.state, n + r.tokenCalls, att :: r.attempts⟩
            | 0 =>
              ⟨.err { kind := .authentication, message := "Authentication failed"
                      status_code := some code, response_body := body }, st1, n, [att]⟩
          else
            ⟨.err { kind := .authentication, message := "Authentication failed"
                    status_code := some code, response_body := body }, st1, n, [att]⟩
        else if code = 403 then
          ⟨.err { kind := .authentication, message := "Access forbidden - insufficient permissions"
                  status_code := some code, response_body := body }, st1, n, [att]⟩
        else if code = 404 then
          ⟨.err { kind := .notFound, message := "Resource not found"
                  status_code := some code, response_body := body }, st1, n, [att]⟩
        else if code = 429 then
          ⟨.err { kind := .rateLimit, message := "Rate limit exceeded"
                  status_code := some code, response_body := body }, st1, n, [att]⟩
        else if code = 400 then
          ⟨.err { kind := .validation, message := "Invalid request"
                  status_code := some code, response_body := body }, st1, n, [att]⟩
        else
          ⟨.err { kind := .serviceNow, message := "API request failed: " ++ reason
                  status_code := some code, response_body := body }, st1, n, [att]⟩

/-- _make_request: tc and hc count the token-endpoint and main-API calls
already made (indexing the oracles); _retry is the source's internal
retry-guard flag. -/
def make_request (tokenResp : Nat → TokenRespData) (httpResp : Nat → HttpResp)
    (tc hc : Nat) (st : ClientState) (method url : String) (data : Option Json)
    (params : Option (List (String × PVal))) (_retry : Bool) : MRResult :=
  make_request_fuel tokenResp httpResp 1 tc hc st method url data params _retry

/-- One `if option: params[name] = option` statement of
ServiceNowClient.get for a string-valued option: added when truthy. -/
def sparamEntry (name : String) : Option String → List (String × PVal)
  | some q => if q ≠ "" then [(name, PVal.s q)] else []
  | none => []

/-- One `if option is not None: params[name] = option` statement of
ServiceNowClient.get for an integer option: added when not None. -/
def iparamEntry (name : String) : Option Int → List (String × PVal)
  | some n => [(name, PVal.i n)]
  | none => []

/-- The query-parameter dict built by ServiceNowClient.get (lines
478-490): the six conditional insertions in source order. -/
def get_params (query fields : Option String) (limit offset : Option Int)
    (order_by display_value : Option String) : List (String × PVal) :=
  sparamEntry "sysparm_query" query ++
  sparamEntry "sysparm_fields" fields ++
  iparamEntry "sysparm_limit" limit ++
  iparamEntry "sysparm_offset" offset ++
  sparamEntry "sysparm_order_by" order_by ++
  sparamEntry "sysparm_display_value" display_value

/-- ServiceNowClient.get: build the URL, map the options to sysparm_*
parameters, and issue a GET (params is None when the dict is empty). -/
def client_get (tokenResp : Nat → TokenRespData) (httpResp : Nat → HttpResp)
    (tc hc : Nat) (st : ClientState) (table : String) (sys_id query fields : Option String)
    (limit offset : Option Int) (order_by display_value : Option String) : MRResult :=
  let url := build_url (clientInstance st) table sys_id "/api/now/table"
  let params := get_params query fields limit offset order_by display_value
  make_request tokenResp httpResp tc hc st "GET" url none
    (match params with | [] => none | ps => some ps) false

/-- ServiceNowClient.delete: DELETE to the built URL, no body, no
params. -/
def client_delete (tokenResp : Nat → TokenRespData) (httpResp : Nat → HttpResp)
    (tc hc : Nat) (st : ClientState) (table sys_id : String) : MRResult :=
  let url := build_url (clientInstance st) table (some sys_id) "/api/now/table"
  make_request tokenResp httpResp tc hc st "DELETE" url none none false

/-- read_json_input: empty or whitespace-only stdin yields an empty
dict; otherwise the input is parsed, and a parse failure raises
ValidationError naming the parse error. loads models json.loads, with
the JSONDecodeError text on failure. -/
def read_json_input (loads : String → Except String Json) (input : String) : Res Json :=
  if pyStrip input = "" then .ok (Json.obj [])
  else
    match loads input with
    | .ok v => .ok v
    | .error e => .err { kind := .validation, message := "Invalid JSON input: " ++ e }

/- ===================================================================
   Incidents collaborator (scripts/incidents.py)
   =================================================================== -/

/-- DEFAULT_FIELDS from incidents.py. -/
def DEFAULT_FIELDS : List String :=
  ["sys_id", "number", "short_description", "description", "state", "urgency",
   "impact", "priority", "assignment_group", "assigned_to", "caller_id",
   "category", "subcategory", "opened_at", "opened_by", "resolved_at",
   "resolved_by", "closed_at", "closed_by", "close_code", "close_notes",
   "active", "sys_created_on", "sys_updated_on"]

/-- The arguments of one call to ServiceNowClient.get, as made by the
incidents collaborator. The collaborator treats the client as an
external dependency, so the client is modelled as an oracle from these
arguments to a result. -/
structure GetArgs where
  table : String
  sys_id : Option String
  query : Option String
  fields : Option String
  limit : Option Int
  offset : Option Int
  order_by : Option String
  display_value : Option String
deriving DecidableEq

/-- get_incident: require a truthy sys_id, default the field list, fetch
the record, and fail with NotFoundError when the result value is falsy.
Parameters arrive as decoded JSON values from dispatch_action; scalar
values are rendered with str() semantics where the source interpolates
or forwards them. -/
def get_incident (clientGet : GetArgs → Res Json)
    (sys_id fields display_value : Option Json) : Res Json :=
  if ¬ jtruthyOpt sys_id then
    .err { kind := .validation, message := "sys_id is required for get action" }
  else
    let effective_fields :=
      match fields with
      | some f => pyStr f
      | none => strJoin "," DEFAULT_FIELDS
    match clientGet { table := "incident", sys_id := sys_id.map pyStr, query := none,
                      fields := some effective_fields, limit := none, offset := none,
                      order_by := none, display_value := display_value.map pyStr } with
    | .err e => .err e
    | .ok result =>
      let record := (jget result "result").getD (Json.obj [])
      if ¬ jsonTruthy record then
        .err { kind := .notFound
               message := "Incident with sys_id '" ++ pyStr (sys_id.getD Json.null) ++ "' not found" }
      else .ok record

/-- get_incident_by_number: require a truthy number, query by number
with limit 1, and return the first record. A truthy non-array result
value would make the source raise an uncaught TypeError at records[0];
that is modelled as a generic error and exercised by no claim. -/
def get_incident_by_number (clientGet : GetArgs → Res Json)
    (number fields display_value : Option Json) : Res Json :=
  if ¬ jtruthyOpt number then
    .err { kind := .validation, message := "number is required for get_by_number action" }
  else
    let effective_fields :=
      match fields with
      | some f => pyStr f
      | none => strJoin "," DEFAULT_FIELDS
    match clientGet { table := "incident", sys_id := none,
                      query := some ("number=" ++ pyStr (number.getD Json.null)),
                      fields := some effective_fields, limit := some 1, offset := none,
                      order_by := none, display_value := display_value.map pyStr } with
    | .err e => .err e
    | .ok result =>
      let records := (jget result "result").getD (Json.arr [])
      if ¬ jsonTruthy records then
        .err { kind := .notFound
               message := "Incident with number '" ++ pyStr (number.getD Json.null) ++ "' not found" }
      else
        match records with
        | .arr (x :: _) => .ok x
        | _ => .err { kind := .serviceNow, message := "uncaught TypeError: indexing a non-list result" }

/-- query_incidents: build the caret-joined filter from the provided
parameters in source order (state, urgency, impact, assignment_group,
active, then a truthy extra query), default the field list, and return
the result array of the response. -/
def query_incidents (clientGet : GetArgs → Res Json)
    (state urgency impact assignment_group active query fields : Option Json)
    (limit offset order_by display_value : Option Json) : Res Json :=
  let query_parts :=
    (match state with | some s => ["state=" ++ pyStr s] | none => []) ++
    (match urgency with | some u => ["urgency=" ++ pyStr u] | none => []) ++
    (match impact with | some i => ["impact=" ++ pyStr i] | none => []) ++
    (match assignment_group with | some g => ["assignment_group=" ++ pyStr g] | none => []) ++
    (match active with
     | some a => ["active=" ++ (if jsonTruthy a then "true" else "false")]
     | none => []) ++
    (match query with
     | some q => if jsonTruthy q then [pyStr q] else []
     | none => [])
  let full_query := match query_parts with | [] => none | ps => some (strJoin "^" ps)
  let effective_fields :=
    match fields with
    | some f => pyStr f
    | none => strJoin "," DEFAULT_FIELDS
  match clientGet { table := "incident", sys_id := none, query := full_query,
                    fields := some effective_fields, limit := limit.bind jint,
                    offset := offset.bind jint, order_by := order_by.map pyStr,
                    display_value := display_value.map pyStr } with
  | .err e => .err e
  | .ok result => .ok ((jget result "result").getD (Json.arr []))

/-- dispatch_action: require a truthy action, then dispatch on its
string value, passing the per-action parameters through; unknown
actions fail with ValidationError listing the valid names. clientGet
stands for the client built by create_client(). -/
def dispatch_action (clientGet : GetArgs → Res Json)
    (params : List (String × Json)) : Res Json :=
  let action := plookup params "action"
  if ¬ jtruthyOpt action then
    .err { kind := .validation
           message := "action is required. Valid actions: get, get_by_number, query" }
  else
    let a := action.getD Json.null
    let fields := plookup params "fields"
    let display_value := plookup params "display_value"
    if jeqStr a "get" then
      get_incident clientGet (plookup params "sys_id") fields display_value
    else if jeqStr a "get_by_number" then
      get_incident_by_number clientGet (plookup params "number") fields display_value
    else if jeqStr a "query" then
      query_incidents clientGet (plookup params "state") (plookup params "urgency")
        (plookup params "impact") (plookup params "assignment_group")
        (plookup params "active") (plookup params "query") fields
        (plookup params "limit") (plookup params "offset")
        (plookup params "order_by") display_value
    else
      .err { kind := .validation
             message := "Invalid action: " ++ pyStr a ++ ". Valid actions: get, get_by_number, query" }

/-- A mocked client for the dispatch examples: it answers with a
response whose result array is empty exactly when called on the
incident table with the filter state=1^active=true and no sys_id, and
fails otherwise. A successful dispatch through this mock therefore
certifies the filter string the collaborator built. -/
def mockIncidentClient : GetArgs → Res Json := fun a =>
  if a.table = "incident" ∧ a.query = some "state=1^active=true" ∧ a.sys_id = none then
    .ok (Json.obj [("result", Json.arr [])])
  else
    .err { kind := .serviceNow, message := "unexpected request" }

/- ===================================================================
   Spec-side definitions used to state the claims
   =================================================================== -/

/-- The claim's status-code-to-error-kind table for HTTP failures other
than 401 (the OAuth retry case). -/
def httpErrorKind (code : Int) : ErrorKind :=
  if code = 403 then .authentication
  else if code = 404 then .notFound
  else if code = 429 then .rateLimit
  else if code = 400 then .validation
  else .serviceNow

/-- The message _make_request attaches for each such failure. -/
def httpErrorMessage (code : Int) (reason : String) : String :=
  if code = 403 then "Access forbidden - insufficient permissions"
  else if code = 404 then "Resource not found"
  else if code = 429 then "Rate limit exceeded"
  else if code = 400 then "Invalid request"
  else "API request failed: " ++ reason

/-- Character-level escaping for writing an env-file value inside double
quotes: backslash, double quote, newline and tab become two-character
escapes; every other character is written as itself. -/
def escChar (c : Char) : List Char :=
  if c = '\\' then ['\\', '\\']
  else if c = '"' then ['\\', '"']
  else if c = '\n' then ['\\', 'n']
  else if c = '\t' then ['\\', 't']
  else [c]

/-- Escape a whole character list. -/
def escList : List Char → List Char
  | [] => []
  | c :: cs => escChar c ++ escList cs

/-- Write a value as a double-quoted env-file token. -/
def encodeEnvValue (v : String) : String :=
  "\"" ++ ⟨escList v.data⟩ ++ "\""

/-- Apply a per-character expansion to a whole character list. -/
def escListWith (f : Char → List Char) : List Char → List Char
  | [] => []
  | c :: cs => f c ++ escListWith f cs

/-- State of one encoded character after the first decode pass
(escaped backslashes replaced by the NUL sentinel). -/
def esc1 (c : Char) : List Char :=
  if c = '\\' then ['\x00']
  else if c = '"' then ['\\', '"']
  else if c = '\n' then ['\\', 'n']
  else if c = '\t' then ['\\', 't']
  else [c]

/-- State after the second decode pass (escaped quotes resolved). -/
def esc2 (c : Char) : List Char :=
  if c = '\\' then ['\x00']
  else if c = '"' then ['"']
  else if c = '\n' then ['\\', 'n']
  else if c = '\t' then ['\\', 't']
  else [c]

/-- State after the third decode pass (newline escapes resolved). -/
def esc3 (c : Char) : List Char :=
  if c = '\\' then ['\x00']
  else if c = '"' then ['"']
  else if c = '\n' then ['\n']
  else if c = '\t' then ['\\', 't']
  else [c]

/-- State after the fourth decode pass (tab escapes resolved): only the
sentinel remains to be restored to a backslash. -/
def esc4 (c : Char) : Char :=
  if c = '\\' then '\x00' else c

/- ===================================================================
   Theorems
   =================================================================== -/

/-- A string always starts with its own leading segment. -/
theorem strStartsWith_self_append (s t : String) : strStartsWith (s ++ t) s = true := by
  show List.isPrefixOf s.data (s.data ++ t.data) = true
  induction s.data with
  | nil => simp [List.isPrefixOf]
  | cons c cs ih => simp [List.isPrefixOf, ih]

/-- C7: On the incidents collaborator, dispatching the action get with no
sys_id supplied fails with a ValidationError whose message contains
"sys_id is required" (the code raises exactly
"sys_id is required for get action", which starts with that text); and
dispatching the action query with state "1" and active true builds the
filter state=1^active=true - certified by the mock client, which only
answers when called on the incident table with exactly that
sysparm_query and no sys_id - and the empty result array of the mocked
response is returned as the result. -/
theorem c7_dispatch_examples :
    (dispatch_action mockIncidentClient [("action", Json.str "get")] =
      .err { kind := .validation, message := "sys_id is required for get action" })
    ∧ strStartsWith "sys_id is required for get action" "sys_id is required" = true
    ∧ (dispatch_action mockIncidentClient
        [("action", Json.str "query"), ("state", Json.str "1"), ("active", Json.bool true)] =
      .ok (Json.arr [])) :=
  ⟨rfl, rfl, rfl⟩

/-- C8: read_json_input returns an empty mapping on empty or
whitespace-only input, the parsed object on well-formed input, and
fails with a ValidationError whose message contains (indeed starts
with) "Invalid JSON input" on malformed input, where well-formed and
malformed are relative to the json.loads parameter. -/
theorem c8_read_json_input (loads : String → Except String Json) (input : String) :
    (pyStrip input = "" → read_json_input loads input = .ok (Json.obj []))
    ∧ (∀ j, pyStrip input ≠ "" → loads input = .ok j →
        read_json_input loads input = .ok j)
    ∧ (∀ m, pyStrip input ≠ "" → loads input = .error m →
        read_json_input loads input =
          .err { kind := .validation, message := "Invalid JSON input: " ++ m }
        ∧ strStartsWith ("Invalid JSON input: " ++ m) "Invalid JSON input" = true) := by
  refine ⟨fun h => by simp [read_json_input, h], fun j hne hl => ?_, fun m hne hl => ?_⟩
  · simp [read_json_input, hne, hl]
  · refine ⟨by simp [read_json_input, hne, hl], ?_⟩
    have : "Invalid JSON input: " ++ m = "Invalid JSON input" ++ (": " ++ m) :=
      String.append_assoc "Invalid JSON input" ": " m
    rw [this]
    exact strStartsWith_self_append _ _

/-- Witness for C8 at concrete inputs: whitespace-only input yields the
empty object, a parsed object is passed through, and a malformed input
yields the ValidationError with the "Invalid JSON input" message. -/
theorem c8_witness :
    (read_json_input (fun _ => .error "boom") " \t\n" = .ok (Json.obj []))
    ∧ (read_json_input (fun _ => .ok (Json.arr [Json.num 1])) "[1]" =
        .ok (Json.arr [Json.num 1]))
    ∧ (read_json_input (fun _ => .error "boom") "nope" =
        .err { kind := .validation, message := "Invalid JSON input: boom" }) :=
  ⟨(c8_read_json_input (fun _ => .error "boom") " \t\n").1 rfl,
   (c8_read_json_input (fun _ => .ok (Json.arr [Json.num 1])) "[1]").2.1
     _ (by decide) rfl,
   ((c8_read_json_input (fun _ => .error "boom") "nope").2.2 "boom" (by decide) rfl).1⟩

/-- C6 counterexample: the claim says every non-absent optional argument
of get is mapped to its query parameter; but a supplied empty query
string is omitted (the source adds string options only when truthy),
while a supplied limit of 0 is sent (limit uses an is-not-None check),
so presence alone does not determine the mapping in either direction. -/
theorem c6_counterexample :
    get_params (some "") none none none none none = []
    ∧ get_params none none (some 0) none none none = [("sysparm_limit", PVal.i 0)] :=
  ⟨rfl, rfl⟩

/-- C5 counterexample: the claim says the backslash-r sequence is
resolved when unquoting and that writing then loading any valid
KEY=VALUE line reproduces the value. But (i) _parse_quoted_value only
resolves the escaped quote, escaped backslash, backslash-n and
backslash-t, so a quoted value containing backslash-r keeps both
characters literally instead of becoming a carriage return; (ii) a
value containing a raw carriage return tears the line when the file is
read back (universal newlines), so the loaded binding is the torn
fragment, not the value; and (iii) a value containing the NUL
character collides with the decoder's internal sentinel and comes back
with the NUL turned into a backslash. -/
theorem c5_counterexample :
    (parse_quoted_value "\"a\\rb\"" = "a\\rb" ∧ "a\\rb" ≠ "a\rb")
    ∧ (load_env_file [some ("KEY=" ++ encodeEnvValue "a\rb")] = [("KEY", "\"a")]
       ∧ "\"a" ≠ "a\rb")
    ∧ (parse_quoted_value (encodeEnvValue "a\x00b") = "a\\b" ∧ "a\\b" ≠ "a\x00b") :=
  ⟨⟨rfl, by decide⟩, ⟨rfl, by decide⟩, ⟨rfl, by decide⟩⟩

/-- C2: _get_auth_header selects exactly one scheme by strict
precedence. A truthy api_key always yields Bearer of the key, no matter
what else is configured; otherwise truthy client_id and client_secret
select OAuth - reusing a cached token, or obtaining one (one token
call) when none is cached - yielding token_type and access_token;
otherwise truthy username and password yield Basic of
base64(username:password); otherwise AuthenticationError is raised.
Present is the source's truthiness check: set and non-empty. -/
theorem c2_auth_precedence (tokenResp : Nat → TokenRespData) (st : ClientState) (tc : Nat) :
    (truthyS st.config.api_key = true →
      get_auth_header tokenResp st tc =
        (.ok ("Bearer " ++ st.config.api_key.getD "", st), 0))
    ∧ (truthyS st.config.api_key = false →
       truthyS st.config.client_id = true → truthyS st.config.client_secret = true →
        (truthyS st.access_token = true →
          get_auth_header tokenResp st tc =
            (.ok (st.token_type ++ " " ++ st.access_token.getD "", st), 0))
        ∧ (truthyS st.access_token = false →
           ∀ t ttype, tokenResp tc = .ok (some t) ttype → t ≠ "" →
            get_auth_header tokenResp st tc =
              (.ok (ttype.getD "Bearer" ++ " " ++ t,
                    { st with access_token := some t, token_type := ttype.getD "Bearer" }), 1)))
    ∧ (truthyS st.config.api_key = false →
       (truthyS st.config.client_id && truthyS st.config.client_secret) = false →
       truthyS st.config.username = true → truthyS st.config.password = true →
        get_auth_header tokenResp st tc =
          (.ok ("Basic " ++ base64Encode
                  (utf8Bytes (st.config.username.getD "" ++ ":" ++ st.config.password.getD "")), st), 0))
    ∧ (truthyS st.config.api_key = false →
       (truthyS st.config.client_id && truthyS st.config.client_secret) = false →
       (truthyS st.config.username && truthyS st.config.password) = false →
        get_auth_header tokenResp st tc =
          (.err { kind := .authentication, message := "No valid authentication method available" }, 0)) := by
  refine ⟨fun h => by simp [get_auth_header, h], fun h0 h1 h2 => ⟨fun h3 => ?_, fun h3 t ttype ht hne => ?_⟩,
          fun h0 h12 h3 h4 => ?_, fun h0 h12 h34 => ?_⟩
  · simp [get_auth_header, h0, h1, h2, h3]
  · simp only [get_auth_header, h0, h1, h2, h3, ht, obtain_oauth_token]
    simp [truthyS, hne]
  · rcases Bool.and_eq_false_iff.mp h12 with h | h <;>
      simp [get_auth_header, h0, h, h3, h4]
  · rcases Bool.and_eq_false_iff.mp h12 with h | h <;>
      rcases Bool.and_eq_false_iff.mp h34 with h' | h' <;>
      simp [get_auth_header, h0, h, h']

/-- Witness for C2: each precedence branch at a concrete configuration.
The api_key branch uses a configuration where all three credential sets
are present, showing the key still wins. -/
theorem c2_witness :
    (get_auth_header (fun _ => .urlError "down")
        ⟨⟨some "https://x", some "u", some "p", some "cid", some "cs", some "k", none⟩, none, "Bearer"⟩ 0 =
      (.ok ("Bearer k", ⟨⟨some "https://x", some "u", some "p", some "cid", some "cs", some "k", none⟩, none, "Bearer"⟩), 0))
    ∧ (get_auth_header (fun _ => .ok (some "tok") (some "Custom"))
        ⟨⟨some "https://x", none, none, some "cid", some "cs", none, none⟩, none, "Bearer"⟩ 0 =
      (.ok ("Custom tok", ⟨⟨some "https://x", none, none, some "cid", some "cs", none, none⟩, some "tok", "Custom"⟩), 1))
    ∧ (get_auth_header (fun _ => .urlError "down")
        ⟨⟨some "https://x", some "user", some "pass", none, none, none, none⟩, none, "Bearer"⟩ 0 =
      (.ok ("Basic " ++ base64Encode (utf8Bytes "user:pass"),
            ⟨⟨some "https://x", some "user", some "pass", none, none, none, none⟩, none, "Bearer"⟩), 0))
    ∧ (get_auth_header (fun _ => .urlError "down")
        ⟨⟨some "https://x", none, none, none, none, none, none⟩, none, "Bearer"⟩ 0 =
      (.err { kind := .authentication, message := "No valid authentication method available" }, 0)) :=
  ⟨(c2_auth_precedence (fun _ => .urlError "down")
      ⟨⟨some "https://x", some "u", some "p", some "cid", some "cs", some "k", none⟩, none, "Bearer"⟩ 0).1 rfl,
   ((c2_auth_precedence (fun _ => .ok (some "tok") (some "Custom"))
      ⟨⟨some "https://x", none, none, some "cid", some "cs", none, none⟩, none, "Bearer"⟩ 0).2.1
      rfl rfl rfl).2 rfl "tok" (some "Custom") rfl (by decide),
   (c2_auth_precedence (fun _ => .urlError "down")
      ⟨⟨some "https://x", some "user", some "pass", none, none, none, none⟩, none, "Bearer"⟩ 0).2.2.1
      rfl rfl rfl rfl,
   (c2_auth_precedence (fun _ => .urlError "down")
      ⟨⟨some "https://x", none, none, none, none, none, none⟩, none, "Bearer"⟩ 0).2.2.2 rfl rfl rfl⟩

/-- C9: to_dict always contains the message under the error key; a
present (truthy, i.e. nonzero) status code is included; and a present
(truthy, i.e. nonempty) response body is included under details, parsed
when json.loads accepts it and as the raw string otherwise. Presence
follows the source's truthiness checks, consistent with the spec's
stated presence convention. -/
theorem c9_to_dict (loads : String → Except String Json) (e : SNError) :
    plookup (to_dict loads e) "error" = some (Json.str e.message)
    ∧ (∀ n, e.status_code = some n → n ≠ 0 →
        plookup (to_dict loads e) "status_code" = some (Json.num n))
    ∧ (∀ b, e.response_body = some b → b ≠ "" →
        (∀ j, loads b = .ok j → plookup (to_dict loads e) "details" = some j)
        ∧ (∀ m, loads b = .error m → plookup (to_dict loads e) "details" = some (Json.str b))) := by
  refine ⟨?_, fun n hn hnz => ?_, fun b hb hbne => ⟨fun j hj => ?_, fun m hm => ?_⟩⟩
  · unfold to_dict
    by_cases h1 : truthyI e.status_code <;> by_cases h2 : truthyS e.response_body <;>
      simp only [h1, h2, if_true, if_false] <;>
      (cases hl : loads (e.response_body.getD "") <;> simp [plookup])
  · have h1 : truthyI e.status_code = true := by simp [truthyI, hn, hnz]
    unfold to_dict
    by_cases h2 : truthyS e.response_body <;>
      simp only [h1, h2, hn, if_true, if_false] <;>
      (cases hl : loads (e.response_body.getD "") <;> simp [plookup, truthyI, hnz])
  · have h2 : truthyS e.response_body = true := by simp [truthyS, hb, hbne]
    unfold to_dict
    by_cases h1 : truthyI e.status_code <;>
      simp [h1, h2, plookup, hb, hj, truthyS, hbne]
  · have h2 : truthyS e.response_body = true := by simp [truthyS, hb, hbne]
    unfold to_dict
    by_cases h1 : truthyI e.status_code <;>
      simp [h1, h2, plookup, hb, hm, truthyS, hbne]

/-- Witness for C9: a concrete error with nonzero status and a body
that fails JSON parsing is serialized with message, status code and the
raw body as details. -/
theorem c9_witness :
    plookup (to_dict (fun _ => .error "bad") ⟨.serviceNow, "boom", some 500, some "raw"⟩) "error" =
      some (Json.str "boom")
    ∧ plookup (to_dict (fun _ => .error "bad") ⟨.serviceNow, "boom", some 500, some "raw"⟩) "status_code" =
      some (Json.num 500)
    ∧ plookup (to_dict (fun _ => .error "bad") ⟨.serviceNow, "boom", some 500, some "raw"⟩) "details" =
      some (Json.str "raw") :=
  ⟨(c9_to_dict (fun _ => .error "bad") ⟨.serviceNow, "boom", some 500, some "raw"⟩).1,
   (c9_to_dict (fun _ => .error "bad") ⟨.serviceNow, "boom", some 500, some "raw"⟩).2.1 500 rfl (by decide),
   ((c9_to_dict (fun _ => .error "bad") ⟨.serviceNow, "boom", some 500, some "raw"⟩).2.2 "raw" rfl
      (by decide)).2 "bad" rfl⟩

/-- C10: the URL builder treats an empty sys_id like an absent one - the
URL is the bare collection URL - and so a delete with an empty sys_id
issues its DELETE against the collection endpoint; a get with an empty
sys_id likewise targets the collection URL. -/
theorem c10_empty_sys_id (inst table : String) (tokenResp : Nat → TokenRespData)
    (httpResp : Nat → HttpResp) (tc hc : Nat) (st : ClientState)
    (hdr : String) (st1 : ClientState) (n : Nat) :
    build_url inst table (some "") "/api/now/table" = inst ++ "/api/now/table/" ++ table
    ∧ build_url inst table (some "") "/api/now/table" = build_url inst table none "/api/now/table"
    ∧ (get_auth_header tokenResp st tc = (.ok (hdr, st1), n) →
       st.config.instanceUrl = some inst →
        (client_delete tokenResp httpResp tc hc st table "").attempts.head? =
          some ⟨"DELETE", inst ++ "/api/now/table/" ++ table, none, none⟩
        ∧ (client_get tokenResp httpResp tc hc st table (some "")
             none none none none none none).attempts.head? =
          some ⟨"GET", inst ++ "/api/now/table/" ++ table, none, none⟩) := by
  have hb : build_url inst table (some "") "/api/now/table" =
      inst ++ "/api/now/table/" ++ table := by
    show inst ++ "/api/now/table" ++ "/" ++ table = inst ++ "/api/now/table/" ++ table
    rw [String.append_assoc inst "/api/now/table" "/"]
    rfl
  refine ⟨hb, rfl, fun hauth hinst => ?_⟩
  have hci : clientInstance st = inst := by simp [clientInstance, hinst]
  constructor
  · show (make_request_fuel tokenResp httpResp 1 tc hc st "DELETE"
        (build_url (clientInstance st) table (some "") "/api/now/table") none none false).attempts.head? = _
    rw [hci, hb]
    rw [make_request_fuel]
    rw [hauth]
    cases h : httpResp hc with
    | ok body => simp
    | urlError reason => simp
    | httpError code reason body =>
      by_cases h401 : code = 401 <;> simp [h401] <;> split_ifs <;> simp
  · show (make_request_fuel tokenResp httpResp 1 tc hc st "GET"
        (build_url (clientInstance st) table (some "") "/api/now/table") none
        (match get_params none none none none none none with
         | [] => none | ps => some ps) false).attempts.head? = _
    rw [hci, hb]
    rw [make_request_fuel]
    rw [hauth]
    cases h : httpResp hc with
    | ok body => simp [get_params, sparamEntry, iparamEntry]
    | urlError reason => simp [get_params, sparamEntry, iparamEntry]
    | httpError code reason body =>
      by_cases h401 : code = 401 <;> simp [h401, get_params, sparamEntry, iparamEntry] <;>
        split_ifs <;> simp

/-- Witness for C10 at a concrete client: the DELETE and GET attempts of
a basic-auth client with an empty sys_id both target the collection
endpoint. -/
theorem c10_witness :
    (client_delete (fun _ => .urlError "down") (fun _ => .ok (some (Json.obj [])))
        0 0 ⟨⟨some "https://x", some "u", some "p", none, none, none, none⟩, none, "Bearer"⟩
        "incident" "").attempts.head? =
      some ⟨"DELETE", "https://x" ++ "/api/now/table/" ++ "incident", none, none⟩
    ∧ (client_get (fun _ => .urlError "down") (fun _ => .ok (some (Json.obj [])))
        0 0 ⟨⟨some "https://x", some "u", some "p", none, none, none, none⟩, none, "Bearer"⟩
        "incident" (some "") none none none none none none).attempts.head? =
      some ⟨"GET", "https://x" ++ "/api/now/table/" ++ "incident", none, none⟩ :=
  (c10_empty_sys_id "https://x" "incident" (fun _ => .urlError "down")
    (fun _ => .ok (some (Json.obj []))) 0 0
    ⟨⟨some "https://x", some "u", some "p", none, none, none, none⟩, none, "Bearer"⟩
    ("Basic " ++ base64Encode (utf8Bytes "u:p"))
    ⟨⟨some "https://x", some "u", some "p", none, none, none, none⟩, none, "Bearer"⟩ 0).2.2
    rfl rfl

/-- C3: outside the OAuth 401-retry case, the raised error kind is a
one-to-one function of the status code (403 authentication, 404
notFound, 429 rateLimit, 400 validation, anything else the base
ServiceNowError with a message beginning "API request failed"), and
every such error carries the numeric status code and the raw response
body; a transport-level failure raises the base ServiceNowError with a
message containing connection-failure wording ("Failed to connect").
httpErrorKind / httpErrorMessage are the claim's mapping table, proved
equal to what _make_request raises. -/
theorem c3_error_mapping (tokenResp : Nat → TokenRespData) (httpResp : Nat → HttpResp)
    (tc hc : Nat) (st : ClientState) (m u : String) (d : Option Json)
    (p : Option (List (String × PVal))) (hdr : String) (st1 : ClientState) (n : Nat)
    (code : Int) (reason : String) (body : Option String) :
    (get_auth_header tokenResp st tc = (.ok (hdr, st1), n) →
      (httpResp hc = .httpError code reason body → code ≠ 401 →
        make_request tokenResp httpResp tc hc st m u d p false =
          ⟨.err ⟨httpErrorKind code, httpErrorMessage code reason, some code, body⟩, st1, n, [⟨m, u, d, p⟩]⟩)
      ∧ (httpResp hc = .urlError reason →
        make_request tokenResp httpResp tc hc st m u d p false =
          ⟨.err ⟨.serviceNow, "Failed to connect to ServiceNow: " ++ reason, none, none⟩,
           st1, n, [⟨m, u, d, p⟩]⟩))
    ∧ (code ≠ 403 → code ≠ 404 → code ≠ 429 → code ≠ 400 →
        httpErrorKind code = .serviceNow
        ∧ strStartsWith (httpErrorMessage code reason) "API request failed" = true) := by
  refine ⟨fun hauth => ⟨fun hresp h401 => ?_, fun hresp => ?_⟩, fun h3 h4 h9 h0 => ⟨?_, ?_⟩⟩
  · rw [make_request, make_request_fuel, hauth, hresp]
    by_cases e3 : code = 403 <;> by_cases e4 : code = 404 <;>
      by_cases e9 : code = 429 <;> by_cases e0 : code = 400 <;>
      simp_all [httpErrorKind, httpErrorMessage]
  · rw [make_request, make_request_fuel, hauth, hresp]
  · simp [httpErrorKind, h3, h4, h9, h0]
  · have hmsg : httpErrorMessage code reason = "API request failed: " ++ reason := by
      simp [httpErrorMessage, h3, h4, h9, h0]
    rw [hmsg]
    have : "API request failed: " ++ reason = "API request failed" ++ (": " ++ reason) :=
      String.append_assoc "API request failed" ": " reason
    rw [this]
    exact strStartsWith_self_append _ _

/-- Witness for C3: a 404 under a concrete basic-auth client yields
NotFoundError with the status code and body, and a transport failure
yields the connection-failure ServiceNowError. -/
theorem c3_witness :
    (make_request (fun _ => .urlError "down")
        (fun _ => .httpError 404 "Not Found" (some "{}")) 0 0
        ⟨⟨some "https://x", some "u", some "p", none, none, none, none⟩, none, "Bearer"⟩
        "GET" "https://x/api/now/table/incident" none none false =
      ⟨.err ⟨.notFound, "Resource not found", some 404, some "{}"⟩,
       ⟨⟨some "https://x", some "u", some "p", none, none, none, none⟩, none, "Bearer"⟩, 0,
       [⟨"GET", "https://x/api/now/table/incident", none, none⟩]⟩)
    ∧ (make_request (fun _ => .urlError "down") (fun _ => .urlError "refused") 0 0
        ⟨⟨some "https://x", some "u", some "p", none, none, none, none⟩, none, "Bearer"⟩
        "GET" "https://x/api/now/table/incident" none none false =
      ⟨.err ⟨.serviceNow, "Failed to connect to ServiceNow: refused", none, none⟩,
       ⟨⟨some "https://x", some "u", some "p", none, none, none, none⟩, none, "Bearer"⟩, 0,
       [⟨"GET", "https://x/api/now/table/incident", none, none⟩]⟩)
    ∧ httpErrorKind 500 = .serviceNow
    ∧ strStartsWith (httpErrorMessage 500 "Server Error") "API request failed" = true :=
  ⟨((c3_error_mapping (fun _ => .urlError "down")
      (fun _ => .httpError 404 "Not Found" (some "{}")) 0 0
      ⟨⟨some "https://x", some "u", some "p", none, none, none, none⟩, none, "Bearer"⟩
      "GET" "https://x/api/now/table/incident" none none
      ("Basic " ++ base64Encode (utf8Bytes "u:p"))
      ⟨⟨some "https://x", some "u", some "p", none, none, none, none⟩, none, "Bearer"⟩ 0
      404 "Not Found" (some "{}")).1 rfl).1 rfl (by decide),
   ((c3_error_mapping (fun _ => .urlError "down") (fun _ => .urlError "refused") 0 0
      ⟨⟨some "https://x", some "u", some "p", none, none, none, none⟩, none, "Bearer"⟩
      "GET" "https://x/api/now/table/incident" none none
      ("Basic " ++ base64Encode (utf8Bytes "u:p"))
      ⟨⟨some "https://x", some "u", some "p", none, none, none, none⟩, none, "Bearer"⟩ 0
      404 "refused" none).1 rfl).2 rfl,
   ((c3_error_mapping (fun _ => .urlError "down") (fun _ => .urlError "down") 0 0
      ⟨⟨some "https://x", some "u", some "p", none, none, none, none⟩, none, "Bearer"⟩
      "GET" "u" none none "h"
      ⟨⟨some "https://x", some "u", some "p", none, none, none, none⟩, none, "Bearer"⟩ 0
      500 "Server Error" none).2 (by decide) (by decide) (by decide) (by decide)).1,
   ((c3_error_mapping (fun _ => .urlError "down") (fun _ => .urlError "down") 0 0
      ⟨⟨some "https://x", some "u", some "p", none, none, none, none⟩, none, "Bearer"⟩
      "GET" "u" none none "h"
      ⟨⟨some "https://x", some "u", some "p", none, none, none, none⟩, none, "Bearer"⟩ 0
      500 "Server Error" none).2 (by decide) (by decide) (by decide) (by decide)).2⟩

/-- C1: under the OAuth scheme with a cached access token, a 401 makes
the client clear the cached token and retry the entire request exactly
once - the trace shows exactly two identical attempts (same method, url,
body data and query params) and exactly one token refetch - and a second
401 raises AuthenticationError carrying status 401 and the second
response body, with no further attempt. Under API-key or Basic
authentication (no cached token is ever set), a 401 raises immediately:
the trace shows exactly one attempt and no token call. -/
theorem c1_oauth_401_retry (tokenResp : Nat → TokenRespData) (httpResp : Nat → HttpResp)
    (tc hc : Nat) (cfg : Config) (t t2 ttype ttype2 : String) (m u : String)
    (d : Option Json) (p : Option (List (String × PVal)))
    (r1 r2 : String) (b1 b2 : Option String) :
    (truthyS cfg.api_key = false →
     truthyS cfg.client_id = true → truthyS cfg.client_secret = true →
     t ≠ "" → t2 ≠ "" →
     httpResp hc = .httpError 401 r1 b1 →
     tokenResp tc = .ok (some t2) (some ttype2) →
     httpResp (hc + 1) = .httpError 401 r2 b2 →
      make_request tokenResp httpResp tc hc ⟨cfg, some t, ttype⟩ m u d p false =
        ⟨.err ⟨.authentication, "Authentication failed", some 401, b2⟩,
         ⟨cfg, some t2, ttype2⟩, 1, [⟨m, u, d, p⟩, ⟨m, u, d, p⟩]⟩)
    ∧ (truthyS cfg.api_key = true →
       httpResp hc = .httpError 401 r1 b1 →
        make_request tokenResp httpResp tc hc ⟨cfg, none, ttype⟩ m u d p false =
          ⟨.err ⟨.authentication, "Authentication failed", some 401, b1⟩,
           ⟨cfg, none, ttype⟩, 0, [⟨m, u, d, p⟩]⟩)
    ∧ (truthyS cfg.api_key = false →
       (truthyS cfg.client_id && truthyS cfg.client_secret) = false →
       truthyS cfg.username = true → truthyS cfg.password = true →
       httpResp hc = .httpError 401 r1 b1 →
        make_request tokenResp httpResp tc hc ⟨cfg, none, ttype⟩ m u d p false =
          ⟨.err ⟨.authentication, "Authentication failed", some 401, b1⟩,
           ⟨cfg, none, ttype⟩, 0, [⟨m, u, d, p⟩]⟩) := by
  refine ⟨fun hk hcid hcs ht ht2 hr1 htok hr2 => ?_, fun hk hr1 => ?_,
          fun hk h12 hu hp hr1 => ?_⟩
  · have hcached : get_auth_header tokenResp ⟨cfg, some t, ttype⟩ tc =
        (.ok (ttype ++ " " ++ t, ⟨cfg, some t, ttype⟩), 0) := by
      have := ((c2_auth_precedence tokenResp ⟨cfg, some t, ttype⟩ tc).2.1 hk hcid hcs).1
        (by simp [truthyS, ht])
      simpa using this
    have hfresh : get_auth_header tokenResp ⟨cfg, none, ttype⟩ tc =
        (.ok (ttype2 ++ " " ++ t2, ⟨cfg, some t2, ttype2⟩), 1) := by
      have := ((c2_auth_precedence tokenResp ⟨cfg, none, ttype⟩ tc).2.1 hk hcid hcs).2
        rfl t2 (some ttype2) htok ht2
      simpa using this
    rw [make_request]
    simp [make_request_fuel, hcached, hfresh, hr1, hr2, truthyS, ht, ht2]
  · have hauth : get_auth_header tokenResp ⟨cfg, none, ttype⟩ tc =
        (.ok ("Bearer " ++ cfg.api_key.getD "", ⟨cfg, none, ttype⟩), 0) :=
      (c2_auth_precedence tokenResp ⟨cfg, none, ttype⟩ tc).1 hk
    rw [make_request, make_request_fuel, hauth, hr1]
    simp [truthyS]
  · have hauth : get_auth_header tokenResp ⟨cfg, none, ttype⟩ tc =
        (.ok ("Basic " ++ base64Encode (utf8Bytes (cfg.username.getD "" ++ ":" ++ cfg.password.getD "")),
              ⟨cfg, none, ttype⟩), 0) :=
      (c2_auth_precedence tokenResp ⟨cfg, none, ttype⟩ tc).2.2.1 hk h12 hu hp
    rw [make_request, make_request_fuel, hauth, hr1]
    simp [truthyS]

/-- Witness for C1: a concrete OAuth client with a cached token makes
exactly two identical attempts and one token refetch before failing
with status 401 and the second response body; concrete API-key and
Basic clients fail after exactly one attempt and no token call. -/
theorem c1_witness :
    (make_request (fun _ => .ok (some "new") (some "Bearer"))
        (fun n => match n with
          | 0 => .httpError 401 "Unauthorized" (some "body1")
          | _ => .httpError 401 "Unauthorized" (some "body2")) 0 0
        ⟨⟨some "https://x", none, none, some "cid", some "cs", none, none⟩, some "old", "Bearer"⟩
        "GET" "https://x/api/now/table/incident" none
        (some [("sysparm_query", PVal.s "state=1")]) false =
      ⟨.err ⟨.authentication, "Authentication failed", some 401, some "body2"⟩,
       ⟨⟨some "https://x", none, none, some "cid", some "cs", none, none⟩, some "new", "Bearer"⟩, 1,
       [⟨"GET", "https://x/api/now/table/incident", none, (some [("sysparm_query", PVal.s "state=1")])⟩,
        ⟨"GET", "https://x/api/now/table/incident", none, (some [("sysparm_query", PVal.s "state=1")])⟩]⟩)
    ∧ (make_request (fun _ => .urlError "down")
        (fun _ => .httpError 401 "Unauthorized" (some "body1")) 0 0
        ⟨⟨some "https://x", none, none, none, none, some "k", none⟩, none, "Bearer"⟩
        "GET" "https://x/api/now/table/incident" none none false =
      ⟨.err ⟨.authentication, "Authentication failed", some 401, some "body1"⟩,
       ⟨⟨some "https://x", none, none, none, none, some "k", none⟩, none, "Bearer"⟩, 0,
       [⟨"GET", "https://x/api/now/table/incident", none, none⟩]⟩)
    ∧ (make_request (fun _ => .urlError "down")
        (fun _ => .httpError 401 "Unauthorized" (some "body1")) 0 0
        ⟨⟨some "https://x", some "u", some "p", none, none, none, none⟩, none, "Bearer"⟩
        "GET" "https://x/api/now/table/incident" none none false =
      ⟨.err ⟨.authentication, "Authentication failed", some 401, some "body1"⟩,
       ⟨⟨some "https://x", some "u", some "p", none, none, none, none⟩, none, "Bearer"⟩, 0,
       [⟨"GET", "https://x/api/now/table/incident", none, none⟩]⟩) :=
  ⟨(c1_oauth_401_retry (fun _ => .ok (some "new") (some "Bearer"))
      (fun n => match n with
        | 0 => .httpError 401 "Unauthorized" (some "body1")
        | _ => .httpError 401 "Unauthorized" (some "body2")) 0 0
      ⟨some "https://x", none, none, some "cid", some "cs", none, none⟩
      "old" "new" "Bearer" "Bearer" "GET" "https://x/api/now/table/incident" none
      (some [("sysparm_query", PVal.s "state=1")])
      "Unauthorized" "Unauthorized" (some "body1") (some "body2")).1
      rfl rfl rfl (by decide) (by decide) rfl rfl rfl,
   (c1_oauth_401_retry (fun _ => .urlError "down")
      (fun _ => .httpError 401 "Unauthorized" (some "body1")) 0 0
      ⟨some "https://x", none, none, none, none, some "k", none⟩
      "old" "new" "Bearer" "Bearer" "GET" "https://x/api/now/table/incident" none none
      "Unauthorized" "Unauthorized" (some "body1") (some "body1")).2.1 rfl rfl,
   (c1_oauth_401_retry (fun _ => .urlError "down")
      (fun _ => .httpError 401 "Unauthorized" (some "body1")) 0 0
      ⟨some "https://x", some "u", some "p", none, none, none, none⟩
      "old" "new" "Bearer" "Bearer" "GET" "https://x/api/now/table/incident" none none
      "Unauthorized" "Unauthorized" (some "body1") (some "body1")).2.2 rfl rfl rfl rfl rfl⟩

/-- C4: get_config fails, always with ConfigurationError, exactly when
the merged instance value is not truthy or none of the three credential
sets is truthy (presence is the source's truthiness check: an empty
string or absent value disqualifies, a whitespace-only string passes);
otherwise it succeeds, the returned instance is the merged value with
trailing slashes stripped, every credential field is the merged value,
and the merge gives the process environment precedence over the file
value for every key. -/
theorem c4_get_config (env fileVars : String → Option String) :
    ((∃ e, get_config env fileVars = .err e ∧ e.kind = .configuration) ↔
      (truthyS (envGet env fileVars "SERVICENOW_INSTANCE") = false ∨
       ((truthyS (envGet env fileVars "SERVICENOW_USERNAME") &&
         truthyS (envGet env fileVars "SERVICENOW_PASSWORD")) ||
        (truthyS (envGet env fileVars "SERVICENOW_CLIENT_ID") &&
         truthyS (envGet env fileVars "SERVICENOW_CLIENT_SECRET")) ||
        truthyS (envGet env fileVars "SERVICENOW_API_KEY")) = false))
    ∧ (∀ cfg, get_config env fileVars = .ok cfg →
        cfg.instanceUrl = some (rstripSlash ((envGet env fileVars "SERVICENOW_INSTANCE").getD ""))
        ∧ cfg.username = envGet env fileVars "SERVICENOW_USERNAME"
        ∧ cfg.password = envGet env fileVars "SERVICENOW_PASSWORD"
        ∧ cfg.client_id = envGet env fileVars "SERVICENOW_CLIENT_ID"
        ∧ cfg.client_secret = envGet env fileVars "SERVICENOW_CLIENT_SECRET"
        ∧ cfg.api_key = envGet env fileVars "SERVICENOW_API_KEY")
    ∧ (∀ k v, env k = some v → envGet env fileVars k = some v) := by
  refine ⟨?_, ?_, fun k v h => by simp [envGet, h]⟩
  · by_cases hI : truthyS (envGet env fileVars "SERVICENOW_INSTANCE") = true
    · by_cases hA : ((truthyS (envGet env fileVars "SERVICENOW_USERNAME") &&
          truthyS (envGet env fileVars "SERVICENOW_PASSWORD")) ||
         (truthyS (envGet env fileVars "SERVICENOW_CLIENT_ID") &&
          truthyS (envGet env fileVars "SERVICENOW_CLIENT_SECRET")) ||
         truthyS (envGet env fileVars "SERVICENOW_API_KEY")) = true
      · simp [get_config, hI, hA]
      · simp [get_config, hI, hA]
    · simp [get_config, hI]
  · intro cfg hok
    by_cases hI : truthyS (envGet env fileVars "SERVICENOW_INSTANCE") = true
    · by_cases hA : ((truthyS (envGet env fileVars "SERVICENOW_USERNAME") &&
          truthyS (envGet env fileVars "SERVICENOW_PASSWORD")) ||
         (truthyS (envGet env fileVars "SERVICENOW_CLIENT_ID") &&
          truthyS (envGet env fileVars "SERVICENOW_CLIENT_SECRET")) ||
         truthyS (envGet env fileVars "SERVICENOW_API_KEY")) = true
      · rw [get_config] at hok
        simp only [hI, hA, if_true, if_false, not_true, ite_false, ite_true] at hok
        simp [hA] at hok
        cases hok
        simp
      · rw [get_config] at hok
        simp [hI, hA] at hok
    · rw [get_config] at hok
      simp [hI] at hok

/-- Witness for C4: with no configuration at all, get_config fails with
ConfigurationError; with SERVICENOW_INSTANCE set to a URL ending in a
slash in the environment (overriding a file value) plus a
whitespace-only api_key, it succeeds and the merged, slash-stripped
environment value wins. -/
theorem c4_witness :
    (∃ e, get_config (fun _ => none) (fun _ => none) = .err e ∧ e.kind = .configuration)
    ∧ envGet (fun k => if k = "SERVICENOW_INSTANCE" then some "https://x/" else
                if k = "SERVICENOW_API_KEY" then some "   " else none)
        (fun k => if k = "SERVICENOW_INSTANCE" then some "https://file" else none)
        "SERVICENOW_INSTANCE" = some "https://x/"
    ∧ (⟨some "https://x", none, none, none, none, some "   ", none⟩ : Config).instanceUrl =
        some (rstripSlash ((envGet
          (fun k => if k = "SERVICENOW_INSTANCE" then some "https://x/" else
             if k = "SERVICENOW_API_KEY" then some "   " else none)
          (fun k => if k = "SERVICENOW_INSTANCE" then some "https://file" else none)
          "SERVICENOW_INSTANCE").getD "")) :=
  ⟨(c4_get_config (fun _ => none) (fun _ => none)).1.mpr (Or.inl rfl),
   (c4_get_config (fun k => if k = "SERVICENOW_INSTANCE" then some "https://x/" else
       if k = "SERVICENOW_API_KEY" then some "   " else none)
     (fun k => if k = "SERVICENOW_INSTANCE" then some "https://file" else none)).2.2
     "SERVICENOW_INSTANCE" "https://x/" rfl,
   ((c4_get_config (fun k => if k = "SERVICENOW_INSTANCE" then some "https://x/" else
       if k = "SERVICENOW_API_KEY" then some "   " else none)
     (fun k => if k = "SERVICENOW_INSTANCE" then some "https://file" else none)).2.1
     ⟨some "https://x", none, none, none, none, some "   ", none⟩ rfl).1⟩

/-- Membership in a string-valued sysparm entry: present iff the option
is supplied, non-empty, and the pair is exactly the named entry. -/
theorem mem_sparamEntry (name : String) (x : Option String) (k : String) (v : PVal) :
    (k, v) ∈ sparamEntry name x ↔ (k = name ∧ ∃ s, v = PVal.s s ∧ x = some s ∧ s ≠ "") := by
  cases x with
  | none => simp [sparamEntry]
  | some q =>
    by_cases hq : q = "" <;> simp [sparamEntry, hq, Prod.ext_iff] <;> aesop

/-- Membership in an integer-valued sysparm entry: present iff the
option is supplied (any value, including 0). -/
theorem mem_iparamEntry (name : String) (x : Option Int) (k : String) (v : PVal) :
    (k, v) ∈ iparamEntry name x ↔ (k = name ∧ ∃ n, v = PVal.i n ∧ x = some n) := by
  cases x with
  | none => simp [iparamEntry]
  | some m => simp [iparamEntry, Prod.ext_iff]

/-- C6 (amended): the query parameters sent by get are characterized
exactly - a string-valued option (query, fields, order_by,
display_value) contributes its sysparm_* parameter iff it is supplied
and non-empty (a supplied empty string is omitted), an integer option
(limit, offset) contributes iff it is supplied (including 0), and
nothing else is ever sent; and the GET attempt issued by client_get
carries exactly this parameter dict (None when it is empty). -/
theorem c6_amended_params (query fields : Option String) (limit offset : Option Int)
    (order_by display_value : Option String) :
    (∀ k v, (k, v) ∈ get_params query fields limit offset order_by display_value ↔
      ((k = "sysparm_query" ∧ ∃ s, v = PVal.s s ∧ query = some s ∧ s ≠ "")
       ∨ (k = "sysparm_fields" ∧ ∃ s, v = PVal.s s ∧ fields = some s ∧ s ≠ "")
       ∨ (k = "sysparm_limit" ∧ ∃ n, v = PVal.i n ∧ limit = some n)
       ∨ (k = "sysparm_offset" ∧ ∃ n, v = PVal.i n ∧ offset = some n)
       ∨ (k = "sysparm_order_by" ∧ ∃ s, v = PVal.s s ∧ order_by = some s ∧ s ≠ "")
       ∨ (k = "sysparm_display_value" ∧ ∃ s, v = PVal.s s ∧ display_value = some s ∧ s ≠ "")))
    ∧ (∀ (tokenResp : Nat → TokenRespData) (httpResp : Nat → HttpResp) (tc hc : Nat)
         (st : ClientState) (table : String) (sys_id : Option String)
         (hdr : String) (st1 : ClientState) (n : Nat),
        get_auth_header tokenResp st tc = (.ok (hdr, st1), n) →
        (client_get tokenResp httpResp tc hc st table sys_id query fields
           limit offset order_by display_value).attempts.head? =
          some ⟨"GET", build_url (clientInstance st) table sys_id "/api/now/table", none,
                match get_params query fields limit offset order_by display_value with
                | [] => none | ps => some ps⟩) := by
  constructor
  · intro k v
    simp only [get_params, List.mem_append, mem_sparamEntry, mem_iparamEntry, or_assoc]
  · intro tokenResp httpResp tc hc st table sys_id hdr st1 n hauth
    simp only [client_get]
    rw [make_request, make_request_fuel, hauth]
    cases h : httpResp hc with
    | ok body => simp
    | urlError reason => simp
    | httpError code reason body =>
      by_cases h401 : code = 401 <;> simp [h401] <;> split_ifs <;> simp

/-- Witness for C6 (amended) at concrete arguments: a non-empty query
and a zero limit are sent, and the GET attempt of a concrete basic-auth
client carries exactly that dict. -/
theorem c6_witness :
    (("sysparm_query", PVal.s "state=1") ∈ get_params (some "state=1") none (some 0) none none none)
    ∧ (("sysparm_limit", PVal.i 0) ∈ get_params (some "state=1") none (some 0) none none none)
    ∧ (client_get (fun _ => .urlError "down") (fun _ => .ok (some (Json.obj []))) 0 0
        ⟨⟨some "https://x", some "u", some "p", none, none, none, none⟩, none, "Bearer"⟩
        "incident" none (some "state=1") none (some 0) none none none).attempts.head? =
      some ⟨"GET", build_url "https://x" "incident" none "/api/now/table", none,
            some [("sysparm_query", PVal.s "state=1"), ("sysparm_limit", PVal.i 0)]⟩ :=
  ⟨((c6_amended_params (some "state=1") none (some 0) none none none).1
      "sysparm_query" (PVal.s "state=1")).mpr
      (Or.inl ⟨rfl, "state=1", rfl, rfl, by decide⟩),
   ((c6_amended_params (some "state=1") none (some 0) none none none).1
      "sysparm_limit" (PVal.i 0)).mpr
      (Or.inr (Or.inr (Or.inl ⟨rfl, 0, rfl, rfl⟩))),
   (c6_amended_params (some "state=1") none (some 0) none none none).2
      (fun _ => .urlError "down") (fun _ => .ok (some (Json.obj []))) 0 0
      ⟨⟨some "https://x", some "u", some "p", none, none, none, none⟩, none, "Bearer"⟩
      "incident" none ("Basic " ++ base64Encode (utf8Bytes "u:p"))
      ⟨⟨some "https://x", some "u", some "p", none, none, none, none⟩, none, "Bearer"⟩ 0 rfl⟩

/-- A two-character replacement fires at a match. -/
theorem replacePair_cons2_eq (p q : Char) (rep l : List Char) :
    replacePair p q rep (p :: q :: l) = rep ++ replacePair p q rep l := by
  simp [replacePair]

/-- A two-character replacement walks past a character that cannot start
the pattern. -/
theorem replacePair_cons_ne (p q : Char) (rep : List Char) (x : Char) (l : List Char)
    (h : x ≠ p) : replacePair p q rep (x :: l) = x :: replacePair p q rep l := by
  cases l with
  | nil => rfl
  | cons d rest => simp [replacePair, h]

/-- A two-character replacement walks past a pattern-head character
whose successor does not complete the pattern. -/
theorem replacePair_cons2_ne2 (p q : Char) (rep : List Char) (x y : Char) (l : List Char)
    (h : y ≠ q) : replacePair p q rep (x :: y :: l) = x :: replacePair p q rep (y :: l) := by
  have hc : ¬ (x = p ∧ y = q) := fun hh => h hh.2
  simp [replacePair, hc]

/-- escList is escListWith escChar. -/
theorem escList_eq (l : List Char) : escList l = escListWith escChar l := by
  induction l with
  | nil => rfl
  | cons c cs ih => simp [escList, escListWith, ih]

/-- First decode pass on an escaped text: escaped backslashes become the
sentinel. -/
theorem decode_pass1 (l : List Char) :
    replacePair '\\' '\\' ['\x00'] (escListWith escChar l) = escListWith esc1 l := by
  induction l with
  | nil => rfl
  | cons c cs ih =>
    show replacePair '\\' '\\' ['\x00'] (escChar c ++ escListWith escChar cs) =
      esc1 c ++ escListWith esc1 cs
    by_cases h1 : c = '\\'
    · subst h1
      rw [show escChar '\\' = ['\\', '\\'] from rfl,
          show (['\\', '\\'] ++ escListWith escChar cs) = '\\' :: '\\' :: escListWith escChar cs from rfl,
          replacePair_cons2_eq, ih]
      rfl
    · by_cases h2 : c = '"'
      · subst h2
        rw [show escChar '"' = ['\\', '"'] from rfl,
            show (['\\', '"'] ++ escListWith escChar cs) = '\\' :: '"' :: escListWith escChar cs from rfl,
            replacePair_cons2_ne2 _ _ _ _ _ _ (by decide),
            replacePair_cons_ne _ _ _ _ _ (by decide), ih]
        rfl
      · by_cases h3 : c = '\n'
        · subst h3
          rw [show escChar '\n' = ['\\', 'n'] from rfl,
              show (['\\', 'n'] ++ escListWith escChar cs) = '\\' :: 'n' :: escListWith escChar cs from rfl,
              replacePair_cons2_ne2 _ _ _ _ _ _ (by decide),
              replacePair_cons_ne _ _ _ _ _ (by decide), ih]
          rfl
        · by_cases h4 : c = '\t'
          · subst h4
            rw [show escChar '\t' = ['\\', 't'] from rfl,
                show (['\\', 't'] ++ escListWith escChar cs) = '\\' :: 't' :: escListWith escChar cs from rfl,
                replacePair_cons2_ne2 _ _ _ _ _ _ (by decide),
                replacePair_cons_ne _ _ _ _ _ (by decide), ih]
            rfl
          · rw [show escChar c = [c] by simp [escChar, h1, h2, h3, h4],
                show ([c] ++ escListWith escChar cs) = c :: escListWith escChar cs from rfl,
                replacePair_cons_ne _ _ _ _ _ h1, ih,
                show esc1 c = [c] by simp [esc1, h1, h2, h3, h4]]
            rfl

/-- Second decode pass: escaped double quotes are resolved. -/
theorem decode_pass2 (l : List Char) :
    replacePair '\\' '"' ['"'] (escListWith esc1 l) = escListWith esc2 l := by
  induction l with
  | nil => rfl
  | cons c cs ih =>
    show replacePair '\\' '"' ['"'] (esc1 c ++ escListWith esc1 cs) =
      esc2 c ++ escListWith esc2 cs
    by_cases h1 : c = '\\'
    · subst h1
      rw [show esc1 '\\' = ['\x00'] from rfl,
          show (['\x00'] ++ escListWith esc1 cs) = '\x00' :: escListWith esc1 cs from rfl,
          replacePair_cons_ne _ _ _ _ _ (by decide), ih]
      rfl
    · by_cases h2 : c = '"'
      · subst h2
        rw [show esc1 '"' = ['\\', '"'] from rfl,
            show (['\\', '"'] ++ escListWith esc1 cs) = '\\' :: '"' :: escListWith esc1 cs from rfl,
            replacePair_cons2_eq, ih]
        rfl
      · by_cases h3 : c = '\n'
        · subst h3
          rw [show esc1 '\n' = ['\\', 'n'] from rfl,
              show (['\\', 'n'] ++ escListWith esc1 cs) = '\\' :: 'n' :: escListWith esc1 cs from rfl,
              replacePair_cons2_ne2 _ _ _ _ _ _ (by decide),
              replacePair_cons_ne _ _ _ _ _ (by decide), ih]
          rfl
        · by_cases h4 : c = '\t'
          · subst h4
            rw [show esc1 '\t' = ['\\', 't'] from rfl,
                show (['\\', 't'] ++ escListWith esc1 cs) = '\\' :: 't' :: escListWith esc1 cs from rfl,
                replacePair_cons2_ne2 _ _ _ _ _ _ (by decide),
                replacePair_cons_ne _ _ _ _ _ (by decide), ih]
            rfl
          · rw [show esc1 c = [c] by simp [esc1, h1, h2, h3, h4],
                show ([c] ++ escListWith esc1 cs) = c :: escListWith esc1 cs from rfl,
                replacePair_cons_ne _ _ _ _ _ h1, ih,
                show esc2 c = [c] by simp [esc2, h1, h2, h3, h4]]
            rfl

/-- Third decode pass: newline escapes are resolved. -/
theorem decode_pass3 (l : List Char) :
    replacePair '\\' 'n' ['\n'] (escListWith esc2 l) = escListWith esc3 l := by
  induction l with
  | nil => rfl
  | cons c cs ih =>
    show replacePair '\\' 'n' ['\n'] (esc2 c ++ escListWith esc2 cs) =
      esc3 c ++ escListWith esc3 cs
    by_cases h1 : c = '\\'
    · subst h1
      rw [show esc2 '\\' = ['\x00'] from rfl,
          show (['\x00'] ++ escListWith esc2 cs) = '\x00' :: escListWith esc2 cs from rfl,
          replacePair_cons_ne _ _ _ _ _ (by decide), ih]
      rfl
    · by_cases h2 : c = '"'
      · subst h2
        rw [show esc2 '"' = ['"'] from rfl,
            show (['"'] ++ escListWith esc2 cs) = '"' :: escListWith esc2 cs from rfl,
            replacePair_cons_ne _ _ _ _ _ (by decide), ih]
        rfl
      · by_cases h3 : c = '\n'
        · subst h3
          rw [show esc2 '\n' = ['\\', 'n'] from rfl,
              show (['\\', 'n'] ++ escListWith esc2 cs) = '\\' :: 'n' :: escListWith esc2 cs from rfl,
              replacePair_cons2_eq, ih]
          rfl
        · by_cases h4 : c = '\t'
          · subst h4
            rw [show esc2 '\t' = ['\\', 't'] from rfl,
                show (['\\', 't'] ++ escListWith esc2 cs) = '\\' :: 't' :: escListWith esc2 cs from rfl,
                replacePair_cons2_ne2 _ _ _ _ _ _ (by decide),
                replacePair_cons_ne _ _ _ _ _ (by decide), ih]
            rfl
          · rw [show esc2 c = [c] by simp [esc2, h1, h2, h3, h4],
                show ([c] ++ escListWith esc2 cs) = c :: escListWith esc2 cs from rfl,
                replacePair_cons_ne _ _ _ _ _ h1, ih,
                show esc3 c = [c] by simp [esc3, h1, h2, h3, h4]]
            rfl

/-- Fourth decode pass: tab escapes are resolved; only the sentinel is
left standing in for a literal backslash. -/
theorem decode_pass4 (l : List Char) :
    replacePair '\\' 't' ['\t'] (escListWith esc3 l) =
      escListWith (fun c => [esc4 c]) l := by
  induction l with
  | nil => rfl
  | cons c cs ih =>
    show replacePair '\\' 't' ['\t'] (esc3 c ++ escListWith esc3 cs) =
      [esc4 c] ++ escListWith (fun c => [esc4 c]) cs
    by_cases h1 : c = '\\'
    · subst h1
      rw [show esc3 '\\' = ['\x00'] from rfl,
          show (['\x00'] ++ escListWith esc3 cs) = '\x00' :: escListWith esc3 cs from rfl,
          replacePair_cons_ne _ _ _ _ _ (by decide), ih]
      rfl
    · by_cases h2 : c = '"'
      · subst h2
        rw [show esc3 '"' = ['"'] from rfl,
            show (['"'] ++ escListWith esc3 cs) = '"' :: escListWith esc3 cs from rfl,
            replacePair_cons_ne _ _ _ _ _ (by decide), ih]
        rfl
      · by_cases h3 : c = '\n'
        · subst h3
          rw [show esc3 '\n' = ['\n'] from rfl,
              show (['\n'] ++ escListWith esc3 cs) = '\n' :: escListWith esc3 cs from rfl,
              replacePair_cons_ne _ _ _ _ _ (by decide), ih]
          rfl
        · by_cases h4 : c = '\t'
          · subst h4
            rw [show esc3 '\t' = ['\\', 't'] from rfl,
                show (['\\', 't'] ++ escListWith esc3 cs) = '\\' :: 't' :: escListWith esc3 cs from rfl,
                replacePair_cons2_eq, ih]
            rfl
          · rw [show esc3 c = [c] by simp [esc3, h1, h2, h3, h4],
                show ([c] ++ escListWith esc3 cs) = c :: escListWith esc3 cs from rfl,
                replacePair_cons_ne _ _ _ _ _ h1, ih,
                show esc4 c = c by simp [esc4, h1]]
            rfl

/-- Fifth decode pass: the sentinel is restored to a backslash. The
original text must not itself contain the sentinel character. -/
theorem decode_pass5 (l : List Char) (h : '\x00' ∉ l) :
    replaceChar '\x00' ['\\'] (escListWith (fun c => [esc4 c]) l) = l := by
  induction l with
  | nil => rfl
  | cons c cs ih =>
    have hc : c ≠ '\x00' := fun hh => h (hh ▸ List.mem_cons_self c cs)
    have hcs : '\x00' ∉ cs := fun hh => h (List.mem_cons_of_mem c hh)
    show replaceChar '\x00' ['\\'] ([esc4 c] ++ escListWith (fun c => [esc4 c]) cs) =
      c :: cs
    by_cases h1 : c = '\\'
    · subst h1
      rw [show esc4 '\\' = '\x00' from rfl]
      show (if '\x00' = '\x00' then ['\\'] else ['\x00']) ++
        replaceChar '\x00' ['\\'] (escListWith (fun c => [esc4 c]) cs) = '\\' :: cs
      rw [if_pos rfl, ih hcs]
      rfl
    · rw [show esc4 c = c by simp [esc4, h1]]
      show (if c = '\x00' then ['\\'] else [c]) ++
        replaceChar '\x00' ['\\'] (escListWith (fun c => [esc4 c]) cs) = c :: cs
      rw [if_neg hc, ih hcs]
      rfl

/-- Composing the five passes: decoding an escaped text restores the
original, provided the original does not contain the NUL sentinel. -/
theorem decodeDq_escList (l : List Char) (h : '\x00' ∉ l) :
    decodeDq (escList l) = l := by
  rw [escList_eq]
  show replaceChar '\x00' ['\\']
      (replacePair '\\' 't' ['\t']
        (replacePair '\\' 'n' ['\n']
          (replacePair '\\' '"' ['"']
            (replacePair '\\' '\\' ['\x00'] (escListWith escChar l))))) = l
  rw [decode_pass1, decode_pass2, decode_pass3, decode_pass4, decode_pass5 l h]

/-- Stripping is the identity on a list with non-whitespace first and
last characters. -/
theorem pyStripL_cons_concat (a b : Char) (m : List Char)
    (ha : isPyWs a = false) (hb : isPyWs b = false) :
    pyStripL (a :: (m ++ [b])) = a :: (m ++ [b]) := by
  simp [pyStripL, List.dropWhile_cons, ha, hb, List.reverse_append]

/-- The escaped form of a text contains no newline character. -/
theorem escList_no_newline (l : List Char) : '\n' ∉ escList l := by
  induction l with
  | nil => simp [escList]
  | cons c cs ih =>
    simp only [escList, List.mem_append]
    rintro (h | h)
    · by_cases h1 : c = '\\'
      · subst h1; revert h; decide
      · by_cases h2 : c = '"'
        · subst h2; revert h; decide
        · by_cases h3 : c = '\n'
          · subst h3; revert h; decide
          · by_cases h4 : c = '\t'
            · subst h4; revert h; decide
            · rw [show escChar c = [c] by simp [escChar, h1, h2, h3, h4]] at h
              simp at h
              exact h3 h.symm
    · exact ih h

/-- A character list free of both newline and carriage return is a
single line under the universal-newlines reader. -/
theorem splitNl_no_newline (l : List Char) (h : '\n' ∉ l) (hr : '\r' ∉ l) :
    splitNl l = [l] := by
  induction l with
  | nil => rfl
  | cons c cs ih =>
    have hc : c ≠ '\n' := fun hh => h (hh ▸ List.mem_cons_self c cs)
    have hcr : c ≠ '\r' := fun hh => hr (hh ▸ List.mem_cons_self c cs)
    have hcs : '\n' ∉ cs := fun hh => h (List.mem_cons_of_mem c hh)
    have hcrs : '\r' ∉ cs := fun hh => hr (List.mem_cons_of_mem c hh)
    have h2 : ¬ (c = '\n' ∨ c = '\r') := fun hh => hh.elim hc hcr
    cases cs with
    | nil => simp [splitNl, h2]
    | cons d cs2 =>
      have h1 : ¬ (c = '\r' ∧ d = '\n') := fun hh => hcr hh.1
      simp [splitNl, h1, h2, ih hcs hcrs]

/-- The escaped form of a carriage-return-free text contains no
carriage return (the encoder leaves a raw CR alone, hence the
hypothesis). -/
theorem escList_no_cr (l : List Char) (h : '\r' ∉ l) : '\r' ∉ escList l := by
  induction l with
  | nil => simp [escList]
  | cons c cs ih =>
    have hc : c ≠ '\r' := fun hh => h (hh ▸ List.mem_cons_self c cs)
    have hcs : '\r' ∉ cs := fun hh => h (List.mem_cons_of_mem c hh)
    simp only [escList, List.mem_append]
    rintro (hm | hm)
    · by_cases h1 : c = '\\'
      · subst h1; revert hm; decide
      · by_cases h2 : c = '"'
        · subst h2; revert hm; decide
        · by_cases h3 : c = '\n'
          · subst h3; revert hm; decide
          · by_cases h4 : c = '\t'
            · subst h4; revert hm; decide
            · rw [show escChar c = [c] by simp [escChar, h1, h2, h3, h4]] at hm
              simp at hm
              exact hc hm.symm
    · exact ih hcs hm

/-- Unquoting inverts quoting-with-escaping: parsing the double-quoted,
escaped form of any value (free of the NUL sentinel) restores the
value. -/
theorem parse_quoted_value_encode (v : String) (h : '\x00' ∉ v.data) :
    parse_quoted_value (encodeEnvValue v) = v := by
  have hdata : (encodeEnvValue v).data = '"' :: (escList v.data ++ ['"']) := rfl
  unfold parse_quoted_value
  rw [hdata, pyStripL_cons_concat _ _ _ (by decide) (by decide)]
  rw [if_neg (by simp)]
  rw [if_pos ⟨by simp,
        by rw [show '"' :: (escList v.data ++ ['"']) = ('"' :: escList v.data) ++ ['"'] from rfl]
           exact List.getLast?_concat _,
        by simp⟩]
  rw [show (('"' :: (escList v.data ++ ['"'])).drop 1) = escList v.data ++ ['"'] from rfl,
      List.dropLast_concat, decodeDq_escList _ h]

/-- Writing KEY= followed by the quoted, escaped form of a value free
of raw carriage returns (which the encoder does not escape, so they
would tear the line at read time) and loading it back yields exactly
that binding. -/
theorem load_env_round_trip (v : String) (h : '\x00' ∉ v.data) (hr : '\r' ∉ v.data) :
    load_env_file [some ("KEY=" ++ encodeEnvValue v)] = [("KEY", v)] := by
  have hdata : ("KEY=" ++ encodeEnvValue v).data =
      'K' :: (('E' :: 'Y' :: '=' :: '"' :: escList v.data) ++ ['"']) := rfl
  have happ : ("KEY=" ++ encodeEnvValue v).data =
      ['K', 'E', 'Y', '=', '"'] ++ (escList v.data ++ ['"']) := rfl
  have hnonl : '\n' ∉ ("KEY=" ++ encodeEnvValue v).data := by
    rw [happ]
    intro hmem
    rcases List.mem_append.mp hmem with h | h
    · exact absurd h (by decide)
    · rcases List.mem_append.mp h with h | h
      · exact escList_no_newline _ h
      · exact absurd h (by decide)
  have hnocr : '\r' ∉ ("KEY=" ++ encodeEnvValue v).data := by
    rw [happ]
    intro hmem
    rcases List.mem_append.mp hmem with h | h
    · exact absurd h (by decide)
    · rcases List.mem_append.mp h with h | h
      · exact escList_no_cr _ hr h
      · exact absurd h (by decide)
  show parseEnvLines (splitNl ("KEY=" ++ encodeEnvValue v).data) [] = _
  rw [splitNl_no_newline _ hnonl hnocr, hdata]
  show (let line := pyStripL ('K' :: (('E' :: 'Y' :: '=' :: '"' :: escList v.data) ++ ['"']))
        if line = [] ∨ line.take 1 = ['#'] then parseEnvLines [] []
        else match splitFirst '=' line with
          | none => parseEnvLines [] []
          | some (k, vv) =>
            parseEnvLines [] (dinsert [] ⟨pyStripL k⟩ (parse_quoted_value ⟨vv⟩))) = _
  rw [pyStripL_cons_concat _ _ _ (by decide) (by decide)]
  rw [if_neg (by simp)]
  rw [show splitFirst '=' ('K' :: (('E' :: 'Y' :: '=' :: '"' :: escList v.data) ++ ['"'])) =
        some (['K', 'E', 'Y'], '"' :: (escList v.data ++ ['"'])) by simp [splitFirst]]
  show dinsert [] ⟨pyStripL ['K', 'E', 'Y']⟩
      (parse_quoted_value ⟨'"' :: (escList v.data ++ ['"'])⟩) = _
  rw [show parse_quoted_value ⟨'"' :: (escList v.data ++ ['"'])⟩ =
        parse_quoted_value (encodeEnvValue v) from rfl,
      parse_quoted_value_encode v h]
  rfl

/-- C5 (amended): load_env_file skips blank lines, comment lines and
lines without an equals sign; every other line is split at its first
equals sign only (later equals signs stay in the value), with the key
stripped of surrounding whitespace and the value unquoted; unquoting
strips matching single or double quotes and resolves the backslash
escapes for the escaped quote character, backslash itself, and the
backslash-n and backslash-t sequences - the backslash-r pair is NOT
resolved and stays literal - so that writing then loading a quoted
escaped KEY=VALUE line reproduces the original value for any value free
of raw carriage returns (a raw CR has no escape and tears the line at
read time under universal newlines) and of the NUL character (which
collides with the decoder's internal sentinel); both exclusions are
exhibited as failures in the counterexample. An empty mapping is
returned when no candidate file exists. -/
theorem c5_amended_env_file :
    load_env_file [none, none] = []
    ∧ (∀ (l : List Char) (ls : List (List Char)) (acc : List (String × String)),
        (pyStripL l = [] ∨ (pyStripL l).take 1 = ['#'] ∨ splitFirst '=' (pyStripL l) = none) →
        parseEnvLines (l :: ls) acc = parseEnvLines ls acc)
    ∧ (∀ (l : List Char) (ls : List (List Char)) (acc : List (String × String))
         (k vv : List Char),
        ¬ (pyStripL l = [] ∨ (pyStripL l).take 1 = ['#']) →
        splitFirst '=' (pyStripL l) = some (k, vv) →
        parseEnvLines (l :: ls) acc =
          parseEnvLines ls (dinsert acc ⟨pyStripL k⟩ (parse_quoted_value ⟨vv⟩)))
    ∧ load_env_file [some "K=a=b"] = [("K", "a=b")]
    ∧ parse_quoted_value "'it\\'s'" = "it's"
    ∧ parse_quoted_value "\"a\\rb\"" = "a\\rb"
    ∧ (∀ v : String, '\x00' ∉ v.data → '\r' ∉ v.data →
        load_env_file [some ("KEY=" ++ encodeEnvValue v)] = [("KEY", v)]) := by
  refine ⟨rfl, fun l ls acc hskip => ?_, fun l ls acc k vv hne hsplit => ?_, rfl, rfl, rfl,
          fun v h hr => load_env_round_trip v h hr⟩
  · rcases hskip with h | h | h
    · simp [parseEnvLines, h]
    · by_cases hnil : pyStripL l = []
      · simp [parseEnvLines, hnil]
      · simp [parseEnvLines, h]
    · by_cases hline : pyStripL l = [] ∨ (pyStripL l).take 1 = ['#']
      · simp [parseEnvLines, hline]
      · simp [parseEnvLines, hline, h]
  · simp [parseEnvLines, hne, hsplit]

/-- Witness for C5 (amended): a skipped comment line, and the
round-trip at a concrete value exercising every resolved escape. -/
theorem c5_witness :
    parseEnvLines ['#' :: 'x' :: []] [] = parseEnvLines [] []
    ∧ load_env_file [some ("KEY=" ++ encodeEnvValue "a\\b\"c\nd\te")] =
        [("KEY", "a\\b\"c\nd\te")] :=
  ⟨(c5_amended_env_file.2.1 ['#', 'x'] [] []) (Or.inr (Or.inl rfl)),
   c5_amended_env_file.2.2.2.2.2.2 "a\\b\"c\nd\te" (by decide) (by decide)⟩
